import Mathlib

/-!
Verification of the YaMDb review-platform API against its specification.

The definitions below shallowly embed the request-handling logic of the
repository: the Django models in reviews/models.py, the DRF serializers in
api/serializers.py and the views in api/views.py.  Database tables are lists
of records, request bodies are structures of optional fields, and each
handler is a pure function from the request and the store to a response
(and possibly a new store).
-/

namespace YaMDb

/-- HTTP-level classification of a failed request, as produced by the
framework: DRF ValidationError maps to 400, Http404 to 404, and an exception
that no handler catches (AssertionError, MultipleObjectsReturned) surfaces
as a 500 server error. -/
inductive ApiErr
  | validationError400
  | notFound404
  | assertionError500
  | multipleObjects500
deriving DecidableEq, Repr

/-- A persisted Review row (reviews.models.Review): foreign keys to the
title and the author, a score and free text. -/
structure Review where
  id : Nat
  titleId : Nat
  author : String
  score : Nat
  text : String
deriving DecidableEq, Repr

/-- The scores of the reviews attached to a title (the reviews related
manager traversed by Avg with the lookup reviews__score). -/
def titleScores (tid : Nat) (reviews : List Review) : List Nat :=
  (reviews.filter (fun r => r.titleId == tid)).map (fun r => r.score)

/-- The Avg aggregate annotated onto TitleViewSet.queryset
(views.py: Title.objects.annotate with Avg over reviews__score): SQL AVG is
the arithmetic mean of the column, NULL when there are no rows. -/
def avgScore (tid : Nat) (reviews : List Review) : Option ℚ :=
  if (titleScores tid reviews).length = 0 then none
  else some (((titleScores tid reviews).sum : ℚ) / ((titleScores tid reviews).length : ℚ))

/-- Python int() coercion as performed by DRF IntegerField.to_representation:
truncation toward zero. -/
def pyInt (q : ℚ) : Int := if 0 ≤ q then ⌊q⌋ else ⌈q⌉

/-- The rating field of a serialized Title (serializers.py,
TitleSerializer.rating, an IntegerField with read_only=True applied to the
Avg annotation; a NULL annotation is rendered as JSON null). -/
def ratingField (tid : Nat) (reviews : List Review) : Option Int :=
  (avgScore tid reviews).map pyInt

/-- The specification's value for the rating: the arithmetic mean of the
associated review scores, absent when no reviews exist (spec section 8). -/
def specMeanRating (tid : Nat) (reviews : List Review) : Option ℚ :=
  match titleScores tid reviews with
  | [] => none
  | s => some ((s.sum : ℚ) / (s.length : ℚ))

/-- Two reviews of the same title with scores 1 and 2: the annotated mean is
3/2 but the serialized field truncates it. -/
def c1Reviews : List Review :=
  [⟨1, 7, "alice", 1, "bad"⟩, ⟨2, 7, "bob", 2, "meh"⟩]

theorem pyInt_eq_floor (q : ℚ) (hq : 0 ≤ q) : pyInt q = ⌊q⌋ := by
  simp [pyInt, hq]

theorem titleScores_sum_nonneg (tid : Nat) (reviews : List Review) :
    (0 : ℚ) ≤ ((titleScores tid reviews).sum : ℚ) / ((titleScores tid reviews).length : ℚ) := by
  apply div_nonneg <;> positivity

theorem specMeanRating_eq_avgScore (tid : Nat) (reviews : List Review) :
    specMeanRating tid reviews = avgScore tid reviews := by
  unfold specMeanRating avgScore
  cases h : titleScores tid reviews <;> simp [h]

/-- C1 counterexample: for a title whose two reviews score 1 and 2, the
rating field returned by the API is 1 while the arithmetic mean of the
scores is 3/2, so the returned rating is not the mean. -/
theorem c1_rating_not_mean :
    Option.map (fun z : ℤ => (z : ℚ)) (ratingField 7 c1Reviews) ≠ specMeanRating 7 c1Reviews ∧
    ratingField 7 c1Reviews = some 1 ∧
    specMeanRating 7 c1Reviews = some (3 / 2) := by
  have hs : titleScores 7 c1Reviews = [1, 2] := by decide
  have hmean : specMeanRating 7 c1Reviews = some (3 / 2) := by
    unfold specMeanRating
    rw [hs]
    norm_num
  have hfloor : ⌊(3 : ℚ) / 2⌋ = 1 := by
    rw [Int.floor_eq_iff]
    norm_num
  have hrf : ratingField 7 c1Reviews = some 1 := by
    unfold ratingField avgScore
    rw [hs]
    norm_num [pyInt, hfloor]
  refine ⟨?_, hrf, hmean⟩
  rw [hrf, hmean]
  simp only [Option.map_some', ne_eq, Option.some.injEq]
  norm_num

/-- C1 (amended): the rating field equals the arithmetic mean of the
associated review scores truncated to an integer (the floor, scores being
nonnegative), and it is null exactly when the title has no reviews. -/
theorem c1_rating_is_truncated_mean (tid : Nat) (reviews : List Review) :
    ratingField tid reviews = (specMeanRating tid reviews).map (fun q => ⌊q⌋) ∧
    (ratingField tid reviews = none ↔ titleScores tid reviews = []) := by
  constructor
  · rw [specMeanRating_eq_avgScore]
    by_cases h : (titleScores tid reviews).length = 0
    · simp [ratingField, avgScore, h]
    · simp only [ratingField, avgScore, if_neg h, Option.map_some', Option.some.injEq]
      exact pyInt_eq_floor _ (titleScores_sum_nonneg tid reviews)
  · by_cases h : (titleScores tid reviews).length = 0
    · have he : titleScores tid reviews = [] := List.length_eq_zero.mp h
      simp [ratingField, avgScore, h, he]
    · have he : titleScores tid reviews ≠ [] := fun hc => h (by simp [hc])
      simp [ratingField, avgScore, h, he]

/-- ReviewSerializer.validate duplicate check (serializers.py):
Review.objects.filter(author=..., title__id=...).exists(). -/
def reviewExists (author : String) (tid : Nat) (db : List Review) : Bool :=
  db.any (fun r => r.author == author && r.titleId == tid)

/-- Creating a review through ReviewSerializer on POST: the duplicate check
raises a ValidationError (HTTP 400) before anything is written, leaving the
store unchanged; otherwise the new row is inserted.  Returns the resulting
store together with the error, if any. -/
def createReview (db : List Review) (tid : Nat) (author : String)
    (score : Nat) (text : String) (newId : Nat) : List Review × Option ApiErr :=
  if reviewExists author tid db then (db, some .validationError400)
  else (db ++ [⟨newId, tid, author, score, text⟩], none)

/-- The unique_review constraint of Review.Meta (reviews/models.py): no two
rows share both their title and their author. -/
def uniquePerPair (db : List Review) : Prop :=
  db.Pairwise (fun a b => ¬(a.titleId = b.titleId ∧ a.author = b.author))

theorem reviewExists_false_iff (author : String) (tid : Nat) (db : List Review) :
    reviewExists author tid db = false ↔
      ∀ r ∈ db, ¬(r.titleId = tid ∧ r.author = author) := by
  unfold reviewExists
  rw [← Bool.not_eq_true, List.any_eq_true]
  simp only [Bool.and_eq_true, beq_iff_eq]
  constructor
  · intro h r hr hc
    exact h ⟨r, hr, hc.2, hc.1⟩
  · rintro h ⟨r, hr, ha, ht⟩
    exact h r hr ⟨ht, ha⟩

/-- C2: if a review by the same author on the same title already exists, the
create is rejected with the uniqueness 400 error and the store is unchanged;
and the create always preserves the unique_review invariant that at most one
review exists per (title, author) pair. -/
theorem c2_one_review_per_pair (db : List Review) (tid : Nat) (author : String)
    (score : Nat) (text : String) (newId : Nat) (h : uniquePerPair db) :
    (reviewExists author tid db = true →
      createReview db tid author score text newId = (db, some ApiErr.validationError400)) ∧
    uniquePerPair (createReview db tid author score text newId).1 := by
  constructor
  · intro hex
    simp [createReview, hex]
  · by_cases hex : reviewExists author tid db
    · simpa [createReview, hex] using h
    · rw [Bool.not_eq_true] at hex
      simp only [createReview, hex, Bool.false_eq_true, if_false]
      unfold uniquePerPair at h ⊢
      rw [List.pairwise_append]
      refine ⟨h, List.pairwise_singleton _ _, ?_⟩
      intro a ha b hb
      simp only [List.mem_singleton] at hb
      subst hb
      intro hc
      exact (reviewExists_false_iff author tid db).mp hex a ha ⟨hc.1, hc.2⟩

/-- A store already holding a review by alice on title 1, for the C2 witness. -/
def c2Db : List Review := [⟨1, 1, "alice", 5, "x"⟩]

theorem c2_one_review_per_pair_witness :
    (reviewExists "alice" 1 c2Db = true →
      createReview c2Db 1 "alice" 7 "again" 9 = (c2Db, some ApiErr.validationError400)) ∧
    uniquePerPair (createReview c2Db 1 "alice" 7 "again" 9).1 :=
  c2_one_review_per_pair c2Db 1 "alice" 7 "again" 9 (by unfold uniquePerPair; decide)

/-- A user row as seen by the signup and token flows: the unique username and
email (users/models.py is outside src; the spec gives both as unique). -/
structure SUser where
  username : String
  email : String
deriving DecidableEq, Repr

/-- Outcome of the signup validation. -/
inductive SignupResult
  | ok200
  | validationError400
  | multipleObjects500
deriving DecidableEq, Repr

/-- UserSignUpSerializer validation (serializers.py): validate_username
rejects the reserved name me, then validate filters
User.objects.filter(Q(username=...) | Q(email=...)); when the queryset is
nonempty it is read twice with .get(), which returns the single matching row
or raises MultipleObjectsReturned — an exception nothing catches, surfacing
as a 500 — and a single row whose email or username differs from the input
raises a ValidationError. -/
def signupValidate (username email : String) (db : List SUser) : SignupResult :=
  if username == "me" then .validationError400
  else
    match db.filter (fun u => u.username == username || u.email == email) with
    | [] => .ok200
    | [u] =>
      if u.email != email || u.username != username then .validationError400
      else .ok200
    | _ :: _ :: _ => .multipleObjects500

/-- Existing accounts for the C3 run: alice and bob with distinct emails. -/
def c3Db : List SUser := [⟨"alice", "a@x.com"⟩, ⟨"bob", "b@x.com"⟩]

/-- C3: at the cross-match input (alice's username with bob's email) the
filter matches two rows and .get() raises MultipleObjectsReturned — an
unhandled 500 — instead of the conflict 400 the claim requires; the
single-field partial matches are rejected with 400 and the exact pair is
accepted, as the claim states. -/
theorem c3_cross_match_uncaught :
    signupValidate "alice" "b@x.com" c3Db = SignupResult.multipleObjects500 ∧
    signupValidate "alice" "b@x.com" c3Db ≠ SignupResult.validationError400 ∧
    signupValidate "alice" "other@x.com" c3Db = SignupResult.validationError400 ∧
    signupValidate "carol" "a@x.com" c3Db = SignupResult.validationError400 ∧
    signupValidate "alice" "a@x.com" c3Db = SignupResult.ok200 := by
  refine ⟨?_, ?_, ?_, ?_, ?_⟩ <;> decide

/-- Python falsiness of an optional request field: request.data.get returns
None when the key is absent, and the empty string is also falsy. -/
def falsy : Option String → Bool
  | none => true
  | some s => s == ""

/-- Responses of the token endpoint. -/
inductive TokenResp
  | ok200
  | badRequest400
  | notFound404
deriving DecidableEq, Repr

/-- TokenObtainView.post (views.py): a falsy confirmation_code, then a falsy
username, answer 400; get_object_or_404 on the username answers 404 when no
user matches; a failing check_confirmation_code (utils.py, outside src,
abstracted as the check argument) answers 400; otherwise a token is issued
with 200. -/
def tokenPost (usernameField codeField : Option String) (db : List SUser)
    (check : SUser → String → Bool) : TokenResp :=
  if falsy codeField then .badRequest400
  else if falsy usernameField then .badRequest400
  else
    match db.find? (fun u => u.username == usernameField.getD "") with
    | none => .notFound404
    | some u => if check u (codeField.getD "") then .ok200 else .badRequest400

/-- C4: with both fields present (nonempty), an unknown username answers
404, a known username with a code failing the check answers 400, a passing
check answers 200; and an absent confirmation_code answers 400. -/
theorem c4_token_exchange (uname code : String) (db : List SUser)
    (check : SUser → String → Bool) (hu : uname ≠ "") (hc : code ≠ "") :
    ((db.find? (fun u => u.username == uname) = none →
        tokenPost (some uname) (some code) db check = TokenResp.notFound404) ∧
     (∀ u, db.find? (fun v => v.username == uname) = some u → check u code = false →
        tokenPost (some uname) (some code) db check = TokenResp.badRequest400) ∧
     (∀ u, db.find? (fun v => v.username == uname) = some u → check u code = true →
        tokenPost (some uname) (some code) db check = TokenResp.ok200) ∧
     tokenPost (some uname) none db check = TokenResp.badRequest400) := by
  have hfu : falsy (some uname) = false := by simp [falsy, hu]
  have hfc : falsy (some code) = false := by simp [falsy, hc]
  refine ⟨?_, ?_, ?_, ?_⟩
  · intro hfind
    simp [tokenPost, hfu, hfc, hfind]
  · intro u hfind hcheck
    simp [tokenPost, hfu, hfc, hfind, hcheck]
  · intro u hfind hcheck
    simp [tokenPost, hfu, hfc, hfind, hcheck]
  · simp [tokenPost, falsy]

theorem c4_token_exchange_witness :
    ((c3Db.find? (fun u => u.username == "carol") = none →
        tokenPost (some "carol") (some "1234") c3Db (fun _ c => c == "1234")
          = TokenResp.notFound404) ∧
     (∀ u, c3Db.find? (fun v => v.username == "carol") = some u →
        (fun (_ : SUser) (c : String) => c == "1234") u "1234" = false →
        tokenPost (some "carol") (some "1234") c3Db (fun _ c => c == "1234")
          = TokenResp.badRequest400) ∧
     (∀ u, c3Db.find? (fun v => v.username == "carol") = some u →
        (fun (_ : SUser) (c : String) => c == "1234") u "1234" = true →
        tokenPost (some "carol") (some "1234") c3Db (fun _ c => c == "1234")
          = TokenResp.ok200) ∧
     tokenPost (some "carol") none c3Db (fun _ c => c == "1234")
       = TokenResp.badRequest400) :=
  c4_token_exchange "carol" "1234" c3Db (fun _ c => c == "1234")
    (by decide) (by decide)

/-- The role choices of the User model.  Modelled from the spec:
users/models.py is not under src; the spec gives role as one of user,
moderator, admin. -/
inductive Role
  | user
  | moderator
  | admin
deriving DecidableEq, Repr

/-- A full User row with the fields listed by UserSerializer.Meta.
Modelled from the spec where users/models.py (not under src) defines them:
unique username, unique email, optional bio and display names, a role. -/
structure FullUser where
  username : String
  email : String
  firstName : String
  lastName : String
  bio : String
  role : Role
deriving DecidableEq, Repr

/-- The User.is_admin test used by UserSerializer.validate_role.  Modelled
from the spec: users/models.py is not under src; admin is the privileged
role. -/
def FullUser.isAdmin (u : FullUser) : Bool :=
  match u.role with
  | Role.admin => true
  | _ => false

/-- A partial-update body for /users/me; a field is none when not
submitted. -/
structure MeBody where
  username : Option String := none
  email : Option String := none
  firstName : Option String := none
  lastName : Option String := none
  bio : Option String := none
  role : Option Role := none
deriving DecidableEq, Repr

/-- UserSerializer.validate_role (serializers.py): when the requesting user
is not an admin the submitted role is replaced with the instance's stored
role; an admin's submitted role is kept. -/
def validate_role (requester : FullUser) (storedRole : Role) (submitted : Role) : Role :=
  if requester.isAdmin then submitted else storedRole

/-- The PATCH-PUT branch of UserViewSet.me (views.py): the serializer is
bound to instance = request.user with partial=True, so submitted fields
overwrite the stored ones and absent fields are kept, the role field going
through validate_role with the caller as both requester and instance. -/
def meUpdate (caller : FullUser) (body : MeBody) : FullUser :=
  { caller with
    username := body.username.getD caller.username,
    email := body.email.getD caller.email,
    firstName := body.firstName.getD caller.firstName,
    lastName := body.lastName.getD caller.lastName,
    bio := body.bio.getD caller.bio,
    role := match body.role with
      | none => caller.role
      | some r => validate_role caller caller.role r }

/-- C5: when a non-admin updates their own profile, the stored role after
the update equals the stored role before it — whatever role value was
submitted — and every other submitted field is applied (an absent field
keeping its stored value). -/
theorem c5_role_clamped (caller : FullUser) (body : MeBody)
    (h : caller.isAdmin = false) :
    (meUpdate caller body).role = caller.role ∧
    (meUpdate caller body).username = body.username.getD caller.username ∧
    (meUpdate caller body).email = body.email.getD caller.email ∧
    (meUpdate caller body).firstName = body.firstName.getD caller.firstName ∧
    (meUpdate caller body).lastName = body.lastName.getD caller.lastName ∧
    (meUpdate caller body).bio = body.bio.getD caller.bio := by
  unfold meUpdate validate_role
  cases body.role <;> simp [h]

/-- A non-admin user for the C5 witness. -/
def c5Caller : FullUser :=
  ⟨"carol", "c@x.com", "Carol", "C", "hi", Role.user⟩

/-- A body that tries to escalate the role to admin while changing the
bio. -/
def c5Body : MeBody := { bio := some "new bio", role := some Role.admin }

theorem c5_role_clamped_witness :
    (meUpdate c5Caller c5Body).role = c5Caller.role ∧
    (meUpdate c5Caller c5Body).username = c5Body.username.getD c5Caller.username ∧
    (meUpdate c5Caller c5Body).email = c5Body.email.getD c5Caller.email ∧
    (meUpdate c5Caller c5Body).firstName = c5Body.firstName.getD c5Caller.firstName ∧
    (meUpdate c5Caller c5Body).lastName = c5Body.lastName.getD c5Caller.lastName ∧
    (meUpdate c5Caller c5Body).bio = c5Body.bio.getD c5Caller.bio :=
  c5_role_clamped c5Caller c5Body (by decide)

/-- A persisted Title row (reviews.models.Title): the category foreign key
is nullable (blank=True, null=True) and carries on_delete=SET_NULL. -/
structure TitleRec where
  id : Nat
  name : String
  year : Int
  description : String
  category : Option String
deriving DecidableEq, Repr

/-- A persisted Comments row (reviews.models.Comments): foreign keys to the
review (on_delete=CASCADE) and the author, plus free text. -/
structure CommentRec where
  id : Nat
  reviewId : Nat
  author : String
  text : String
deriving DecidableEq, Repr

/-- The relational store of the reviews app: categories by slug, titles,
reviews and comments. -/
structure Db where
  categories : List String
  titles : List TitleRec
  reviews : List Review
  comments : List CommentRec
deriving Repr

/-- Deleting a Category row: Title.category has on_delete=SET_NULL, so the
titles that referenced the slug stay, with their category cleared. -/
def deleteCategory (db : Db) (slug : String) : Db :=
  { db with
    categories := db.categories.filter (fun s => s != slug),
    titles := db.titles.map (fun t =>
      if t.category == some slug then { t with category := none } else t) }

/-- Deleting a Title row: Review.title has on_delete=CASCADE, so its
reviews are deleted, and Comments.review has on_delete=CASCADE, so the
comments of those reviews are deleted with them. -/
def deleteTitle (db : Db) (tid : Nat) : Db :=
  { db with
    titles := db.titles.filter (fun t => t.id != tid),
    reviews := db.reviews.filter (fun r => r.titleId != tid),
    comments := db.comments.filter (fun c =>
      !(db.reviews.any (fun r => r.id == c.reviewId && r.titleId == tid))) }

/-- Deleting a Review row: Comments.review has on_delete=CASCADE. -/
def deleteReview (db : Db) (rid : Nat) : Db :=
  { db with
    reviews := db.reviews.filter (fun r => r.id != rid),
    comments := db.comments.filter (fun c => c.reviewId != rid) }

/-- C6: deleting a category keeps every title (with the reference to the
deleted slug cleared and all other fields untouched) and leaves reviews and
comments alone; deleting a title deletes exactly its reviews, and a comment
survives exactly when its review was not a review of that title; deleting a
review deletes exactly its comments. -/
theorem c6_delete_cascades (db : Db) (slug : String) (tid rid : Nat) :
    (∀ t ∈ db.titles,
      (if t.category = some slug then { t with category := none } else t)
        ∈ (deleteCategory db slug).titles) ∧
    (deleteCategory db slug).titles.length = db.titles.length ∧
    (deleteCategory db slug).reviews = db.reviews ∧
    (deleteCategory db slug).comments = db.comments ∧
    (∀ r : Review, r ∈ (deleteTitle db tid).reviews ↔
      r ∈ db.reviews ∧ r.titleId ≠ tid) ∧
    (∀ c : CommentRec, c ∈ (deleteTitle db tid).comments ↔
      c ∈ db.comments ∧ ¬∃ r ∈ db.reviews, r.id = c.reviewId ∧ r.titleId = tid) ∧
    (deleteTitle db tid).titles = db.titles.filter (fun t => t.id != tid) ∧
    (∀ c : CommentRec, c ∈ (deleteReview db rid).comments ↔
      c ∈ db.comments ∧ c.reviewId ≠ rid) := by
  refine ⟨?_, ?_, rfl, rfl, ?_, ?_, rfl, ?_⟩
  · intro t ht
    simp only [deleteCategory, List.mem_map]
    refine ⟨t, ht, ?_⟩
    by_cases h : t.category = some slug
    · simp [h]
    · simp [h]
  · simp [deleteCategory]
  · intro r
    simp [deleteTitle, List.mem_filter, bne_iff_ne]
  · intro c
    simp only [deleteTitle, List.mem_filter, Bool.not_eq_true', ← Bool.not_eq_true,
      List.any_eq_true, Bool.and_eq_true, beq_iff_eq]
  · intro c
    simp [deleteReview, List.mem_filter, bne_iff_ne]

/-- A small store exercising every cascade: one category, a title using it,
a review of the title and a comment on the review. -/
def c6Db : Db :=
  { categories := ["films"],
    titles := [⟨1, "Solaris", 1972, "film", some "films"⟩],
    reviews := [⟨1, 1, "alice", 9, "good"⟩],
    comments := [⟨1, 1, "bob", "agree"⟩] }

/-- The title of the c6Db store. -/
def c6T1 : TitleRec := ⟨1, "Solaris", 1972, "film", some "films"⟩

/-- The review of the c6Db store. -/
def c6R1 : Review := ⟨1, 1, "alice", 9, "good"⟩

/-- The comment of the c6Db store. -/
def c6C1 : CommentRec := ⟨1, 1, "bob", "agree"⟩

theorem c6_delete_cascades_witness :
    ((if c6T1.category = some "films" then { c6T1 with category := none } else c6T1)
        ∈ (deleteCategory c6Db "films").titles) ∧
    (c6R1 ∈ (deleteTitle c6Db 1).reviews ↔ c6R1 ∈ c6Db.reviews ∧ c6R1.titleId ≠ 1) ∧
    (c6C1 ∈ (deleteTitle c6Db 1).comments ↔
      c6C1 ∈ c6Db.comments ∧ ¬∃ r ∈ c6Db.reviews, r.id = c6C1.reviewId ∧ r.titleId = 1) ∧
    (c6C1 ∈ (deleteReview c6Db 1).comments ↔ c6C1 ∈ c6Db.comments ∧ c6C1.reviewId ≠ 1) :=
  ⟨(c6_delete_cascades c6Db "films" 1 1).1 c6T1 (by decide),
   (c6_delete_cascades c6Db "films" 1 1).2.2.2.2.1 c6R1,
   (c6_delete_cascades c6Db "films" 1 1).2.2.2.2.2.1 c6C1,
   (c6_delete_cascades c6Db "films" 1 1).2.2.2.2.2.2.2 c6C1⟩

/-- A review create body; the author key is declared read_only on
ReviewSerializer, so whatever the body carries there is ignored. -/
structure ReviewBody where
  author : Option String := none
  score : Nat := 1
  text : String := ""
deriving DecidableEq, Repr

/-- A comment create body; the author key is likewise read_only on
CommentSerializer. -/
structure CommentBody where
  author : Option String := none
  text : String := ""
deriving DecidableEq, Repr

/-- Field validation of a review body as ReviewSerializer builds it from
the Review model (reviews/models.py): score is a SmallIntegerField with the
SCORE_CHOICES 1..10, serialized as a ChoiceField, and text is a required
TextField whose serializer field does not allow blank, so an out-of-range
score or an empty text fails validation. -/
def reviewFieldsValid (body : ReviewBody) : Bool :=
  decide (1 ≤ body.score ∧ body.score ≤ 10) && body.text != ""

/-- Field validation of a comment body as CommentSerializer builds it from
the Comments model: text is a required TextField whose serializer field
does not allow blank. -/
def commentFieldsValid (body : CommentBody) : Bool :=
  body.text != ""

/-- The POST flow of ReviewViewSet (views.py and serializers.py):
serializer.is_valid(raise_exception=True) runs the field validation, then
ReviewSerializer.validate's duplicate check, each answering 400 on failure;
only then does perform_create resolve the title with get_object_or_404 —
answering 404 when the title id does not resolve — and save with
author=request.user and the resolved title, the body's author being
read_only and ignored. -/
def reviewCreateFlow (titles : List TitleRec) (reviews : List Review)
    (tid : Nat) (caller : String) (body : ReviewBody) (newId : Nat) :
    Except ApiErr Review :=
  if !(reviewFieldsValid body) then .error .validationError400
  else if reviewExists caller tid reviews then .error .validationError400
  else if titles.any (fun t => t.id == tid) then
    .ok ⟨newId, tid, caller, body.score, body.text⟩
  else .error .notFound404

/-- The POST flow of CommentViewSet (views.py):
serializer.is_valid(raise_exception=True) runs the field validation,
answering 400 on failure; then perform_create resolves the title and the
review among that title's reviews, each with get_object_or_404 — answering
404 when either does not resolve — and saves with author=request.user and
the resolved review. -/
def commentCreateFlow (titles : List TitleRec) (reviews : List Review)
    (tid rid : Nat) (caller : String) (body : CommentBody) (newId : Nat) :
    Except ApiErr CommentRec :=
  if !(commentFieldsValid body) then .error .validationError400
  else if !(titles.any (fun t => t.id == tid)) then .error .notFound404
  else if !(reviews.any (fun r => r.titleId == tid && r.id == rid)) then
    .error .notFound404
  else .ok ⟨newId, rid, caller, body.text⟩

theorem except_error_ne {α β : Type} {x : Except α β} {e1 e2 : α}
    (h : x = Except.error e1) (hne : e1 ≠ e2) : x ≠ Except.error e2 := by
  subst h
  intro hc
  exact hne (Except.error.inj hc)

/-- C7 counterexample: serializer validation runs before parent resolution,
so a review create with an out-of-range score and a comment create with a
blank text are answered 400 even though their title (id 3, in an empty
store) does not resolve — not the 404 the claim requires of every request
with an unresolvable parent. -/
theorem c7_validation_precedes_parent_resolution :
    reviewCreateFlow [] [] 3 "dave" ⟨none, 11, "x"⟩ 1
        = Except.error ApiErr.validationError400 ∧
    reviewCreateFlow [] [] 3 "dave" ⟨none, 11, "x"⟩ 1
        ≠ Except.error ApiErr.notFound404 ∧
    commentCreateFlow [] [] 3 5 "dave" ⟨none, ""⟩ 1
        = Except.error ApiErr.validationError400 ∧
    commentCreateFlow [] [] 3 5 "dave" ⟨none, ""⟩ 1
        ≠ Except.error ApiErr.notFound404 ∧
    (¬ ∃ t ∈ ([] : List TitleRec), t.id = 3) :=
  ⟨rfl, except_error_ne rfl (by decide), rfl, except_error_ne rfl (by decide),
   by simp⟩

/-- C7 (amended): under referential integrity of the store and for bodies
that pass the serializer field validation (which runs first and answers 400
otherwise), an unresolvable title id makes both create flows answer 404, an
unresolvable review id makes the comment flow answer 404, every
successfully created row carries the caller's identity as its author, and
the outcome never depends on the author field of the body. -/
theorem c7_parent_resolution_author_binding (titles : List TitleRec)
    (reviews : List Review) (tid rid newId : Nat) (caller : String)
    (rb : ReviewBody) (cb : CommentBody)
    (hfk : ∀ r ∈ reviews, ∃ t ∈ titles, t.id = r.titleId)
    (hrb : reviewFieldsValid rb = true)
    (hcb : commentFieldsValid cb = true) :
    ((¬ ∃ t ∈ titles, t.id = tid) →
      reviewCreateFlow titles reviews tid caller rb newId
          = Except.error ApiErr.notFound404 ∧
      commentCreateFlow titles reviews tid rid caller cb newId
          = Except.error ApiErr.notFound404) ∧
    ((¬ ∃ r ∈ reviews, r.titleId = tid ∧ r.id = rid) →
      commentCreateFlow titles reviews tid rid caller cb newId
          = Except.error ApiErr.notFound404) ∧
    (∀ rev, reviewCreateFlow titles reviews tid caller rb newId = Except.ok rev →
      rev.author = caller) ∧
    (∀ c, commentCreateFlow titles reviews tid rid caller cb newId = Except.ok c →
      c.author = caller) ∧
    reviewCreateFlow titles reviews tid caller rb newId
      = reviewCreateFlow titles reviews tid caller { rb with author := none } newId ∧
    commentCreateFlow titles reviews tid rid caller cb newId
      = commentCreateFlow titles reviews tid rid caller { cb with author := none } newId := by
  have htitle : ∀ (b : Bool), (¬ ∃ t ∈ titles, t.id = tid) →
      titles.any (fun t => t.id == tid) = false := by
    intro _ hno
    rw [← Bool.not_eq_true, List.any_eq_true]
    rintro ⟨t, ht, heq⟩
    exact hno ⟨t, ht, beq_iff_eq.mp heq⟩
  refine ⟨?_, ?_, ?_, ?_, ?_, ?_⟩
  · intro hno
    have ht := htitle true hno
    have hex : reviewExists caller tid reviews = false := by
      rw [← Bool.not_eq_true]
      intro hx
      unfold reviewExists at hx
      rw [List.any_eq_true] at hx
      obtain ⟨r, hr, hb⟩ := hx
      rw [Bool.and_eq_true, beq_iff_eq, beq_iff_eq] at hb
      obtain ⟨t, htt, hid⟩ := hfk r hr
      exact hno ⟨t, htt, hid.trans hb.2⟩
    constructor
    · simp [reviewCreateFlow, hrb, hex, ht]
    · simp [commentCreateFlow, hcb, ht]
  · intro hno
    have hrev : reviews.any (fun r => r.titleId == tid && r.id == rid) = false := by
      rw [← Bool.not_eq_true, List.any_eq_true]
      rintro ⟨r, hr, hb⟩
      rw [Bool.and_eq_true, beq_iff_eq, beq_iff_eq] at hb
      exact hno ⟨r, hr, hb⟩
    by_cases ht : titles.any (fun t => t.id == tid) <;>
      simp [commentCreateFlow, hcb, hrev, ht]
  · intro rev hok
    unfold reviewCreateFlow at hok
    by_cases hex : reviewExists caller tid reviews <;>
      by_cases ht : titles.any (fun t => t.id == tid) <;>
        simp [hrb, hex, ht] at hok
    rw [← hok]
  · intro c hok
    unfold commentCreateFlow at hok
    by_cases ht : titles.any (fun t => t.id == tid) <;>
      by_cases hr : reviews.any (fun r => r.titleId == tid && r.id == rid) <;>
        simp [hcb, ht, hr] at hok
    rw [← hok]
  · cases rb
    rfl
  · cases cb
    rfl

/-- A review body passing field validation, for the C7 witness. -/
def c7Rb : ReviewBody := ⟨none, 5, "good"⟩

/-- A comment body passing field validation, for the C7 witness. -/
def c7Cb : CommentBody := ⟨none, "nice"⟩

theorem c7_parent_resolution_author_binding_witness :
    ((¬ ∃ t ∈ ([] : List TitleRec), t.id = 3) →
      reviewCreateFlow [] [] 3 "dave" c7Rb 1 = Except.error ApiErr.notFound404 ∧
      commentCreateFlow [] [] 3 5 "dave" c7Cb 1 = Except.error ApiErr.notFound404) ∧
    ((¬ ∃ r ∈ ([] : List Review), r.titleId = 3 ∧ r.id = 5) →
      commentCreateFlow [] [] 3 5 "dave" c7Cb 1 = Except.error ApiErr.notFound404) ∧
    (∀ rev, reviewCreateFlow [] [] 3 "dave" c7Rb 1 = Except.ok rev →
      rev.author = "dave") ∧
    (∀ c, commentCreateFlow [] [] 3 5 "dave" c7Cb 1 = Except.ok c →
      c.author = "dave") ∧
    reviewCreateFlow [] [] 3 "dave" c7Rb 1
      = reviewCreateFlow [] [] 3 "dave" { c7Rb with author := none } 1 ∧
    commentCreateFlow [] [] 3 5 "dave" c7Cb 1
      = commentCreateFlow [] [] 3 5 "dave" { c7Cb with author := none } 1 :=
  c7_parent_resolution_author_binding [] [] 3 5 1 "dave" c7Rb c7Cb
    (by intro r hr; cases hr) (by decide) (by decide)

/-- Outcome of a PATCH or PUT on /users/me. -/
inductive MeResult
  | ok200 (u : FullUser)
  | badRequest400
  | assertionError500
deriving DecidableEq, Repr

/-- Validity of a /users/me body under the UserSerializer fields.  Modelled
from the spec: users/models.py is not under src, so the field validators are
approximated by necessary conditions of the fields the spec names — a
submitted email must contain an at-sign (EmailField) and a submitted
username is at most 150 characters (the bound the signup serializer also
uses). -/
def meBodyValid (body : MeBody) : Bool :=
  (match body.email with
   | none => true
   | some e => e.data.contains '@') &&
  (match body.username with
   | none => true
   | some u => decide (u.length ≤ 150))

/-- The PATCH-PUT branch of UserViewSet.me as written (views.py):
serializer.is_valid() is called without raise_exception and
serializer.save() follows unconditionally; with invalid data save() fails
its own assertion, an AssertionError no handler catches, so the request
surfaces as a 500 server error instead of a 400. -/
def meRequest (caller : FullUser) (body : MeBody) : MeResult :=
  if meBodyValid body then .ok200 (meUpdate caller body) else .assertionError500

/-- A body whose email fails validation. -/
def c8Body : MeBody := { email := some "not-an-email" }

/-- C8: a PATCH to /users/me whose body fails validation does not produce
the 400 the claim requires: the me handler skips raise_exception, so
serializer.save() dies on its assertion and the request surfaces as a 500
server error. -/
theorem c8_invalid_me_patch_is_500 :
    meRequest c5Caller c8Body = MeResult.assertionError500 ∧
    meRequest c5Caller c8Body ≠ MeResult.badRequest400 := by
  refine ⟨?_, ?_⟩ <;> decide

/-- A create body for a Title as accepted by TitlePostSerializer: a key is
none when absent; the category value is itself optional to represent an
explicit JSON null. -/
structure TitlePostBody where
  name : Option String := none
  year : Option Int := none
  description : Option String := none
  genre : Option (List String) := none
  category : Option (Option String) := none
deriving DecidableEq, Repr

/-- TitlePostSerializer validation and create (serializers.py together with
reviews/models.py): name, year and description are required model fields,
year passing validate_year (no future year); genre and category are
explicitly declared SlugRelatedFields with neither required=False nor
allow_null, so both keys are required, the category may not be null and
must be the slug of an existing Category, and every genre must be the slug
of an existing Genre — an empty genre list being allowed.  On success the
row is created with the resolved category and one GenreTitle link per
listed genre. -/
def titlePostValidate (currentYear : Int) (genreSlugs categorySlugs : List String)
    (newId : Nat) (body : TitlePostBody) : Except ApiErr (TitleRec × List String) :=
  match body.name, body.year, body.description, body.genre, body.category with
  | some nm, some yr, some ds, some gs, some (some cat) =>
    if yr > currentYear then .error .validationError400
    else if !(categorySlugs.any (fun s => s == cat)) then .error .validationError400
    else if !(gs.all (fun g => genreSlugs.any (fun s => s == g))) then .error .validationError400
    else .ok (⟨newId, nm, yr, ds, some cat⟩, gs)
  | _, _, _, _, _ => .error .validationError400

/-- A body supplying everything except the genre and category keys. -/
def c9Body : TitlePostBody :=
  { name := some "Solaris", year := some 1961, description := some "novel" }

/-- C9 counterexample: a create carrying no category and no genre key is
rejected with a validation error, not persisted with a null category and an
empty genre set as the claim requires. -/
theorem c9_no_category_rejected :
    titlePostValidate 2026 [] [] 1 c9Body = Except.error ApiErr.validationError400 := by
  rfl

/-- C9 (amended): the model-level associations are optional, but the create
serializer requires both keys: with the genre key an empty list and the
category an existing slug the title is created with an empty genre set;
with the category key absent, the category null, or the genre key absent,
the create is rejected with a validation error. -/
theorem c9_category_required_genre_may_be_empty (currentYear yr : Int)
    (nm ds cat : String) (newId : Nat) (genreSlugs categorySlugs : List String)
    (hy : ¬ yr > currentYear) (hc : cat ∈ categorySlugs) :
    titlePostValidate currentYear genreSlugs categorySlugs newId
        { name := some nm, year := some yr, description := some ds,
          genre := some [], category := some (some cat) }
      = Except.ok (⟨newId, nm, yr, ds, some cat⟩, []) ∧
    titlePostValidate currentYear genreSlugs categorySlugs newId
        { name := some nm, year := some yr, description := some ds,
          genre := some [], category := none }
      = Except.error ApiErr.validationError400 ∧
    titlePostValidate currentYear genreSlugs categorySlugs newId
        { name := some nm, year := some yr, description := some ds,
          genre := some [], category := some none }
      = Except.error ApiErr.validationError400 ∧
    titlePostValidate currentYear genreSlugs categorySlugs newId
        { name := some nm, year := some yr, description := some ds,
          genre := none, category := some (some cat) }
      = Except.error ApiErr.validationError400 := by
  have hcat : categorySlugs.any (fun s => s == cat) = true := by
    rw [List.any_eq_true]
    exact ⟨cat, hc, beq_self_eq_true cat⟩
  refine ⟨?_, rfl, rfl, rfl⟩
  simp [titlePostValidate, hy, hcat]

theorem c9_category_required_genre_may_be_empty_witness :
    titlePostValidate 2026 [] ["books"] 4
        { name := some "Solaris", year := some 1961, description := some "novel",
          genre := some [], category := some (some "books") }
      = Except.ok (⟨4, "Solaris", 1961, "novel", some "books"⟩, []) ∧
    titlePostValidate 2026 [] ["books"] 4
        { name := some "Solaris", year := some 1961, description := some "novel",
          genre := some [], category := none }
      = Except.error ApiErr.validationError400 ∧
    titlePostValidate 2026 [] ["books"] 4
        { name := some "Solaris", year := some 1961, description := some "novel",
          genre := some [], category := some none }
      = Except.error ApiErr.validationError400 ∧
    titlePostValidate 2026 [] ["books"] 4
        { name := some "Solaris", year := some 1961, description := some "novel",
          genre := none, category := some (some "books") }
      = Except.error ApiErr.validationError400 :=
  c9_category_required_genre_may_be_empty 2026 1961 "Solaris" "novel" "books" 4
    [] ["books"] (by decide) (by decide)

/-- The actions a ModelViewSet dispatches on the Title resource. -/
inductive TitleAction
  | listAction
  | retrieveAction
  | createAction
  | updateAction
  | partUpdateAction
  | destroyAction
deriving DecidableEq, Repr

/-- The two serializer classes TitleViewSet chooses between. -/
inductive TitleSerializerChoice
  | titlePostSerializer
  | titleSerializer
deriving DecidableEq, Repr

/-- TitleViewSet.get_serializer_class (views.py): TitlePostSerializer for
the create and partial_update actions, TitleSerializer for everything
else. -/
def get_serializer_class : TitleAction → TitleSerializerChoice
  | .createAction => .titlePostSerializer
  | .partUpdateAction => .titlePostSerializer
  | _ => .titleSerializer

/-- C10: create (POST) and partial_update (PATCH) are served by the write
serializer whose genre and category are slug fields, while update (PUT) and
the read actions are served by TitleSerializer — a different class, so a
PUT body's genre and category are not processed as slug references the way
create and PATCH process them. -/
theorem c10_serializer_dispatch :
    get_serializer_class TitleAction.createAction
        = TitleSerializerChoice.titlePostSerializer ∧
    get_serializer_class TitleAction.partUpdateAction
        = TitleSerializerChoice.titlePostSerializer ∧
    get_serializer_class TitleAction.updateAction
        = TitleSerializerChoice.titleSerializer ∧
    get_serializer_class TitleAction.listAction
        = TitleSerializerChoice.titleSerializer ∧
    get_serializer_class TitleAction.retrieveAction
        = TitleSerializerChoice.titleSerializer ∧
    get_serializer_class TitleAction.destroyAction
        = TitleSerializerChoice.titleSerializer ∧
    TitleSerializerChoice.titlePostSerializer ≠ TitleSerializerChoice.titleSerializer := by
  refine ⟨rfl, rfl, rfl, rfl, rfl, rfl, ?_⟩
  decide

end YaMDb
